import Mathlib

/-!
Shallow embedding of the crawl-and-diff core of the book-management
repository (`src/scraper/scraper.py`, `src/scraper/utils.py`), together
with theorems settling the frozen claims about it.

Modelling conventions:
* Timestamps are integers (`Int`); only their ordering matters.
* The MongoDB collections are lists of documents; `insert_one` is an
  append, `update_one` with `$set` of a full model dump replaces the
  matching document.
* `hashlib.sha256(...).hexdigest()` is an external library call and is
  abstracted as a function parameter `hashFn : String → String`.
* BeautifulSoup selector extraction is abstracted into a `PageData`
  structure holding exactly the strings the selectors of
  `parse_book_page` would return; the post-extraction logic (indexing,
  numeric conversion, defaults, rating vocabulary) is embedded faithfully.
* `urljoin`-based URL resolution (`resolve_relative_link`) wraps the
  Python standard library and is abstracted as a parameter
  `resolveLink : String → String → String`; the repository-level guards of
  `tag_to_absolute_url` are embedded.
-/

namespace BookKeeper

/-- A field value of a book record: the fields of `BookBase` are strings,
floats (modelled as rationals) or integers. -/
inductive FVal where
  | s (v : String)
  | q (v : ℚ)
  | i (v : Int)
deriving DecidableEq, Repr

/-- The value stored under a key of a change-log `changed_fields` dict:
either an `(old value, new value)` pair (for `updated` entries) or a
boolean flag (the new-book sentinel of creation entries). -/
inductive DVal where
  | pair (o n : FVal)
  | flag (b : Bool)
deriving DecidableEq, Repr

/-- Model of `shared.models.BookBase`: the parse result for one book page.
Field order matches the pydantic declaration order (which is the
iteration order of `book_data.model_dump()`). -/
structure BookBase where
  url : String
  title : String
  category : String
  description : String
  price_incl_tax : ℚ
  price_excl_tax : ℚ
  availability : Int
  review_count : Int
  image_url : String
  rating : Int
deriving DecidableEq, Repr

/-- A stored book document (`shared.models.BookInDB` as it sits in the
`books` collection): the `BookBase` fields plus id, content hash, raw
HTML snapshot and the two timestamps. -/
structure BookDoc where
  id : String
  url : String
  title : String
  category : String
  description : String
  price_incl_tax : ℚ
  price_excl_tax : ℚ
  availability : Int
  review_count : Int
  image_url : String
  rating : Int
  content_hash : String
  raw_html : String
  first_seen : Int
  last_updated : Int
deriving DecidableEq, Repr

/-- Model of `shared.models.BookChangeLog`: one document of the `change_log`
collection. -/
structure ChangeLogEntry where
  book_id : String
  change_type : String
  changed_fields : List (String × DVal)
  timestamp : Int
deriving DecidableEq, Repr

/-- One document of the `session_log` collection (the activity log
written by `process_book_page`). -/
structure ActivityLog where
  session_id : String
  url : String
  timestamp : Int
deriving DecidableEq, Repr

/-- The store state touched by `process_book_page`: the three collections
plus the in-memory `scraped_links` set of the scraper instance. -/
structure ScraperState where
  books : List BookDoc
  change_log : List ChangeLogEntry
  session_log : List ActivityLog
  scraped_links : List String
deriving DecidableEq, Repr

/-- Model of `db.books.find_one({"url": url})`. -/
def findBook (books : List BookDoc) (url : String) : Option BookDoc :=
  books.find? (fun b => b.url == url)

/-- The `changed_fields` dict comprehension of `process_book_page`:
for each key of `book_data.model_dump()` (all of which are present in a
stored document), keep the `(old, new)` pair when the values differ.
The list is in `model_dump` iteration order. -/
def changedFields (old : BookDoc) (nb : BookBase) : List (String × FVal × FVal) :=
  (if old.url = nb.url then [] else [("url", FVal.s old.url, FVal.s nb.url)]) ++
  (if old.title = nb.title then [] else [("title", FVal.s old.title, FVal.s nb.title)]) ++
  (if old.category = nb.category then [] else
    [("category", FVal.s old.category, FVal.s nb.category)]) ++
  (if old.description = nb.description then [] else
    [("description", FVal.s old.description, FVal.s nb.description)]) ++
  (if old.price_incl_tax = nb.price_incl_tax then [] else
    [("price_incl_tax", FVal.q old.price_incl_tax, FVal.q nb.price_incl_tax)]) ++
  (if old.price_excl_tax = nb.price_excl_tax then [] else
    [("price_excl_tax", FVal.q old.price_excl_tax, FVal.q nb.price_excl_tax)]) ++
  (if old.availability = nb.availability then [] else
    [("availability", FVal.i old.availability, FVal.i nb.availability)]) ++
  (if old.review_count = nb.review_count then [] else
    [("review_count", FVal.i old.review_count, FVal.i nb.review_count)]) ++
  (if old.image_url = nb.image_url then [] else
    [("image_url", FVal.s old.image_url, FVal.s nb.image_url)]) ++
  (if old.rating = nb.rating then [] else
    [("rating", FVal.i old.rating, FVal.i nb.rating)])

/-- Change the representation of a field diff into the `(old, new)` pair
values stored in a change-log entry's `changed_fields`. -/
def toPairFields (l : List (String × FVal × FVal)) : List (String × DVal) :=
  l.map (fun kv => (kv.1, DVal.pair kv.2.1 kv.2.2))

/-- Result of one `process_book_page` call: its return value (the Python
strings `"created"` / `"updated"`, or `None`), the state after the call,
and whether `parse_book_page` was invoked. -/
structure ProcessResult where
  classification : Option String
  state : ScraperState
  parserInvoked : Bool
deriving DecidableEq, Repr

/-- Model of `BookScraper.process_book_page`.  The fetch result is passed in as
`fetched` (`None` models a failed fetch); `parse` stands for
`self.parse_book_page`, `hashFn` for the SHA-256 hex digest, `newId` for
the id MongoDB assigns on insert, `now` for `datetime.now(tz=utc)`.

Faithful details: the unchanged check compares the stored `content_hash`
with the hash of the raw body *before* parsing; the update branch
`$set`s the full `book_in_db.model_dump()`, whose `first_seen` field is
`now` (only `last_updated` and `id` were reassigned after construction),
so the stored `first_seen` is overwritten with `now` on update. -/
def process_book_page (hashFn : String → String)
    (parse : String → String → Option BookBase)
    (session_id : String) (newId : String) (now : Int)
    (st : ScraperState) (book_url : String) (fetched : Option String) :
    ProcessResult :=
  if st.scraped_links.contains book_url then ⟨none, st, false⟩
  else
    match fetched with
    | none => ⟨none, st, false⟩
    | some html =>
      if html = "" then ⟨none, st, false⟩
      else
        let content_hash := hashFn html
        match findBook st.books book_url with
        | some existing =>
          if existing.content_hash = content_hash then ⟨none, st, false⟩
          else
            match parse html book_url with
            | none => ⟨none, st, true⟩
            | some nb =>
              let changed := changedFields existing nb
              if changed = [] then ⟨none, st, true⟩
              else
                let newDoc : BookDoc :=
                  { id := existing.id
                    url := nb.url, title := nb.title, category := nb.category
                    description := nb.description
                    price_incl_tax := nb.price_incl_tax
                    price_excl_tax := nb.price_excl_tax
                    availability := nb.availability
                    review_count := nb.review_count
                    image_url := nb.image_url, rating := nb.rating
                    content_hash := content_hash, raw_html := html
                    first_seen := now, last_updated := now }
                ⟨some "updated",
                 { books := st.books.map
                     (fun b => if b.id = existing.id then newDoc else b)
                   change_log := st.change_log ++
                     [⟨existing.id, "updated", toPairFields changed, now⟩]
                   session_log := st.session_log ++ [⟨session_id, book_url, now⟩]
                   scraped_links := st.scraped_links ++ [book_url] },
                 true⟩
        | none =>
          match parse html book_url with
          | none => ⟨none, st, true⟩
          | some nb =>
            let newDoc : BookDoc :=
              { id := newId
                url := nb.url, title := nb.title, category := nb.category
                description := nb.description
                price_incl_tax := nb.price_incl_tax
                price_excl_tax := nb.price_excl_tax
                availability := nb.availability
                review_count := nb.review_count
                image_url := nb.image_url, rating := nb.rating
                content_hash := content_hash, raw_html := html
                first_seen := now, last_updated := now }
            ⟨some "created",
             { books := st.books ++ [newDoc]
               change_log := st.change_log ++
                 [⟨newId, "added", [("new_book", DVal.flag true)], now⟩]
               session_log := st.session_log ++ [⟨session_id, book_url, now⟩]
               scraped_links := st.scraped_links ++ [book_url] },
             true⟩

/-- Descending-timestamp order used by
`change_log.find(...).sort("timestamp", -1)`. -/
def newerEq (a b : ChangeLogEntry) : Prop := b.timestamp ≤ a.timestamp

instance : DecidableRel newerEq := fun a b => by
  unfold newerEq; infer_instance

instance : IsTotal ChangeLogEntry newerEq :=
  ⟨fun a b => le_total b.timestamp a.timestamp⟩

instance : IsTrans ChangeLogEntry newerEq :=
  ⟨fun _ _ _ hab hbc => le_trans hbc hab⟩

/-- Sort a change list newest-first (stable, like the store's sort). -/
def sortNewestFirst (l : List ChangeLogEntry) : List ChangeLogEntry :=
  List.insertionSort newerEq l

/-- Result of one `generate_daily_report` call: the counters, the change
list handed to `send_change_notifications`, and the change list stored
in the persisted report document. -/
structure ReportOutcome where
  new_books : Nat
  updated_books : Nat
  notified : List ChangeLogEntry
  persisted : List ChangeLogEntry
deriving DecidableEq, Repr

/-- Model of `BookScraper.generate_daily_report`: count new books
(`first_seen ≥ since`) and updated-type log entries (`timestamp ≥ since`),
list all log entries with `timestamp ≥ since` newest-first, send
notifications for the full list, then truncate per `CHANGELOG_LIMIT`
(`> 0` keep the first `limit`; `= -1` keep all; otherwise keep none)
before persisting the report. -/
def generate_daily_report (changelogLimit : Int) (st : ScraperState)
    (since : Int) : ReportOutcome :=
  let new_books := (st.books.filter (fun b => since ≤ b.first_seen)).length
  let updated_books := (st.change_log.filter
    (fun e => e.change_type == "updated" && since ≤ e.timestamp)).length
  let listed := sortNewestFirst (st.change_log.filter (fun e => since ≤ e.timestamp))
  let persisted :=
    if changelogLimit > 0 then listed.take changelogLimit.toNat
    else if changelogLimit = -1 then listed
    else []
  ⟨new_books, updated_books, listed, persisted⟩

/-- Membership test `'key' in change['changed_fields']` for a change-log entry. -/
def hasField (cf : List (String × DVal)) (k : String) : Bool :=
  cf.any (fun kv => kv.1 == k)

/-- The bucket loop of `BookScraper.send_change_notifications`: new books
(`change_type == "added"`), price changes (`updated` with a
`price_incl_tax` changed field), availability changes (`updated` with an
`availability` changed field but no price change — the `elif` gives price
precedence), and other updates. Entries of any other change type fall
into no bucket. -/
def partitionChanges (changes : List ChangeLogEntry) :
    List ChangeLogEntry × List ChangeLogEntry × List ChangeLogEntry ×
      List ChangeLogEntry :=
  match changes with
  | [] => ([], [], [], [])
  | c :: rest =>
    let r := partitionChanges rest
    if c.change_type = "added" then (c :: r.1, r.2.1, r.2.2.1, r.2.2.2)
    else if c.change_type = "updated" then
      if hasField c.changed_fields "price_incl_tax" then
        (r.1, c :: r.2.1, r.2.2.1, r.2.2.2)
      else if hasField c.changed_fields "availability" then
        (r.1, r.2.1, c :: r.2.2.1, r.2.2.2)
      else (r.1, r.2.1, r.2.2.1, c :: r.2.2.2)
    else r

/-- One grouped notification email, tagged by the helper that sends it,
with the bucket it reports. -/
inductive Notification where
  | newBooks (l : List ChangeLogEntry)
  | priceChanges (l : List ChangeLogEntry)
  | availabilityChanges (l : List ChangeLogEntry)
  | otherChanges (l : List ChangeLogEntry)
deriving DecidableEq, Repr

/-- Model of `BookScraper.send_change_notifications`: partition, then send one
email per non-empty bucket (`if new_books: ...` etc.). -/
def send_change_notifications (changes : List ChangeLogEntry) :
    List Notification :=
  let p := partitionChanges changes
  (if p.1 = [] then [] else [Notification.newBooks p.1]) ++
  (if p.2.1 = [] then [] else [Notification.priceChanges p.2.1]) ++
  (if p.2.2.1 = [] then [] else [Notification.availabilityChanges p.2.2.1]) ++
  (if p.2.2.2 = [] then [] else [Notification.otherChanges p.2.2.2])

/-- Split a character list at every character satisfying `p` (keeping
empty pieces, like Python `str.split(sep)`). -/
def splitOnPred (p : Char → Bool) : List Char → List (List Char)
  | [] => [[]]
  | c :: rest =>
    if p c then [] :: splitOnPred p rest
    else
      match splitOnPred p rest with
      | [] => [[c]]
      | h :: t => (c :: h) :: t

/-- Python `str.strip()` on a character list: remove leading and
trailing whitespace. -/
def pyStripWS (l : List Char) : List Char :=
  ((l.dropWhile Char.isWhitespace).reverse.dropWhile Char.isWhitespace).reverse

/-- Python `s[1:]`: drop the first character. -/
def pyTail (s : String) : String := String.mk (s.toList.drop 1)

/-- Python `str.split()` with no argument: split on whitespace runs,
dropping empty pieces. -/
def pySplit (s : String) : List String :=
  ((splitOnPred Char.isWhitespace s.toList).filter (fun t => t ≠ [])).map
    String.mk

/-- Python `str.strip(c)` for a single strip character: remove leading
and trailing occurrences of `c`. -/
def pyStripChar (s : String) (c : Char) : String :=
  String.mk (((s.toList.dropWhile (· = c)).reverse.dropWhile (· = c)).reverse)

/-- Nat value of a non-empty all-digit character list. -/
def digitsVal (l : List Char) : Option Nat :=
  if l ≠ [] ∧ l.all Char.isDigit then
    some (l.foldl (fun a c => a * 10 + (c.toNat - 48)) 0)
  else none

/-- Python `int(s)` on the decimal-literal fragment: optional surrounding
whitespace, optional sign, one or more digits; anything else raises
(modelled as `none`). -/
def pyInt? (s : String) : Option Int :=
  match pyStripWS s.toList with
  | '-' :: rest => (digitsVal rest).map (fun n => -(n : Int))
  | '+' :: rest => (digitsVal rest).map (fun n => (n : Int))
  | l => (digitsVal l).map (fun n => (n : Int))

/-- Python `float(s)` on the decimal-literal fragment actually produced
by the site's price strings: optional surrounding whitespace, optional
sign, digits with an optional single decimal point (at least one digit
in total); exotic forms (exponents, inf/nan) are out of the model's
domain and yield `none`. The value is exact as a rational. -/
def pyFloat? (s : String) : Option ℚ :=
  let t := pyStripWS s.toList
  let (sign, body) : ℚ × List Char :=
    match t with
    | '-' :: rest => (-1, rest)
    | '+' :: rest => (1, rest)
    | l => (1, l)
  match splitOnPred (fun c => c = '.') body with
  | [ip] => (digitsVal ip).map (fun n => sign * (n : ℚ))
  | [ip, fp] =>
    if ip = [] ∧ fp = [] then none
    else
      let ipv : Option Nat := if ip = [] then some 0 else digitsVal ip
      let fpv : Option Nat := if fp = [] then some 0 else digitsVal fp
      match ipv, fpv with
      | some a, some b =>
        some (sign * ((a : ℚ) + (b : ℚ) / ((10 : ℚ) ^ fp.length)))
      | _, _ => none
  | _ => none

/-- Python `lst[0]` on a selector result: the head, or an `IndexError`
(modelled as `none`) when the selection is empty. -/
def listGet0 (l : List String) : Option String := l.head?

/-- The `self.ratings` vocabulary of the scraper. -/
def ratings : List (String × Int) :=
  [("one", 1), ("two", 2), ("three", 3), ("four", 4), ("five", 5)]

/-- Dictionary lookup in `self.ratings`. -/
def ratingLookup (s : String) : Option Int :=
  (ratings.find? (fun kv => kv.1 == s)).map (fun kv => kv.2)

/-- Python `rating.strip().lower()` applied to one class name. -/
def normClass (c : String) : String :=
  String.mk ((pyStripWS c.toList).map Char.toLower)

/-- The rating loop of `parse_book_page`: scan the `star-rating` class
list for the first class whose stripped, lowered form is in the
vocabulary and take its value; if none matches (or there is no such
element) the `for`/`else` sets `rating = "zero"` and
`ratings.get("zero", 0)` yields `0`. -/
def ratingScore (classes : List String) : Int :=
  match classes.find? (fun c => (ratingLookup (normClass c)).isSome) with
  | some c => (ratingLookup (normClass c)).getD 0
  | none => 0

/-- Model of `tag_to_absolute_url` from `scraper/network_utils.py`, for a tag that
exists: a missing attribute or an href starting with `#` or
`javascript:` yields the default; otherwise the value is resolved via
`resolve_relative_link` (abstracted as `resolveLink`). -/
def tag_to_absolute_url (resolveLink : String → String → String)
    (attrVal : Option String) (currentUrl : String)
    (defaultReturn : String) : String :=
  match attrVal with
  | none => defaultReturn
  | some v =>
    if v.startsWith "#" || v.startsWith "javascript:" then defaultReturn
    else resolveLink v currentUrl

/-- The strings the BeautifulSoup selectors of `parse_book_page` extract
from one book page.  A `none` / `[]` marks an absent element; Python
turns indexing or attribute access on the absent element into an
exception that the surrounding `try` converts to a `None` parse result. -/
structure PageData where
  h1_text : Option String
  breadcrumb_texts : List String
  description_texts : List String
  price_incl_tax_texts : List String
  price_excl_tax_texts : List String
  availability_texts : List String
  review_count_texts : List String
  image_src : Option (Option String)
  star_rating_classes : Option (List String)
deriving DecidableEq, Repr

/-- Model of `BookScraper.parse_book_page` after selector extraction: each step
mirrors one statement of the `try` block; any failure (absent required
element, malformed number) aborts the whole parse with `none`. -/
def parse_book_page (resolveLink : String → String → String)
    (pd : PageData) (url : String) : Option BookBase := do
  let title ← pd.h1_text
  let category ← listGet0 pd.breadcrumb_texts
  let description := (listGet0 pd.description_texts).getD "No description"
  let pitText ← listGet0 pd.price_incl_tax_texts
  let price_incl_tax ← pyFloat? (pyTail pitText)
  let petText ← listGet0 pd.price_excl_tax_texts
  let price_excl_tax ← pyFloat? (pyTail petText)
  let availText ← listGet0 pd.availability_texts
  let availability ←
    if availText = "" then some (0 : Int)
    else do
      let tok ← (pySplit availText).get? 2
      pyInt? (pyStripChar tok '(')
  let rcText ← listGet0 pd.review_count_texts
  let review_count ← pyInt? rcText
  let image_url :=
    match pd.image_src with
    | none => ""
    | some attr => tag_to_absolute_url resolveLink attr url ""
  let rating := ratingScore (pd.star_rating_classes.getD [])
  some { url, title, category, description, price_incl_tax, price_excl_tax,
         availability, review_count, image_url, rating }

/-- The retry loop of the `exponential_backoff` decorator
(`scraper/utils.py`) as applied to `fetch_page` (`retry_on_None=True`,
`raise_on_failure=False`, `base_delay=1.0`): `f n` is the result of the
`n`-th underlying call (`fetch_page` itself never raises — it converts
timeouts and transport errors to `None`).  Returns the final result, the
number of attempts made, and the list of backoff delays slept
(`base_delay * 2 ** attempt`, slept only when another attempt remains). -/
def backoffAux (f : Nat → Option String) (base : ℚ) (attempt : Nat)
    (remaining : Nat) (delays : List ℚ) : Option String × Nat × List ℚ :=
  match remaining with
  | 0 => (none, attempt, delays.reverse)
  | r + 1 =>
    match f attempt with
    | some v => (some v, attempt + 1, delays.reverse)
    | none =>
      match r with
      | 0 => (none, attempt + 1, delays.reverse)
      | _ + 1 =>
        backoffAux f base (attempt + 1) r ((base * 2 ^ attempt) :: delays)

/-- Model of `fetch_page` as wrapped by `@exponential_backoff(retries=3,
retry_on_None=True, raise_on_failure=False)`: run up to `retries`
attempts, retrying on `None`, never raising. -/
def fetch_with_retry (f : Nat → Option String) (base : ℚ) (retries : Nat) :
    Option String × Nat × List ℚ :=
  backoffAux f base 0 retries []

/-- Module constant of `scraper/utils.py`: the process-global email quota. -/
def MAX_EMAILS : Int := 5

/-- The mutable email-quota state: the current `MAX_EMAILS` value plus a
ghost counter of emails actually dispatched (instrumentation only — it
records how many times `aiosmtplib.send` succeeded). -/
structure EmailState where
  quota : Int
  sent : Int
deriving DecidableEq, Repr

/-- The inputs of one `send_email_alert` call that determine its control
flow: the recipient, whether the required SMTP configuration keys are
all present and truthy, the success of each dispatch attempt, and
`max_retries`. -/
structure EmailCall where
  recipient : Option String
  smtpOk : Bool
  attemptOk : Nat → Bool
  max_retries : Nat

/-- Model of `send_email_alert` (`scraper/utils.py`): refuse immediately when the
quota is exhausted or the recipient is `None`; refuse when SMTP config is
missing; otherwise attempt dispatch up to `max_retries` times, and on
the first success decrement the global quota and return `True`.  The
third component is the number of dispatch attempts made. -/
def send_email_alert (st : EmailState) (call : EmailCall) :
    Bool × EmailState × Nat :=
  if st.quota ≤ 0 ∨ call.recipient = none then (false, st, 0)
  else if ¬ call.smtpOk then (false, st, 0)
  else
    match (List.range call.max_retries).find? call.attemptOk with
    | some i => (true, ⟨st.quota - 1, st.sent + 1⟩, i + 1)
    | none => (false, st, call.max_retries)

/-- A whole process's sequence of `send_email_alert` calls, threading the
global quota. -/
def runEmailCalls (st : EmailState) : List EmailCall → EmailState
  | [] => st
  | c :: rest => runEmailCalls (send_email_alert st c).2.1 rest

/-! ## Claim theorems -/

/-- C1: for every URL with a previously stored record whose content hash
equals the digest of the freshly fetched body, `process_book_page`
returns no classification, leaves the whole store state (records,
change log, session log, visited set) untouched, and never invokes the
parser — the result is independent of the `parse` argument, and the hash
of the raw body is compared before any parsing. -/
theorem hash_match_short_circuit
    (hashFn : String → String) (parse : String → String → Option BookBase)
    (sid nid : String) (now : Int) (st : ScraperState) (url html : String)
    (b : BookDoc)
    (hfind : findBook st.books url = some b)
    (hhash : b.content_hash = hashFn html) :
    process_book_page hashFn parse sid nid now st url (some html) =
      ⟨none, st, false⟩ := by
  unfold process_book_page
  by_cases hc : url ∈ st.scraped_links
  · simp [hc]
  · by_cases hh : html = ""
    · simp [hc, hh]
    · simp [hc, hh, hfind, hhash]

/-- Concrete stored document used by the C1 witness. -/
def docC1 : BookDoc :=
  { id := "id0", url := "u", title := "T", category := "C",
    description := "D", price_incl_tax := 10, price_excl_tax := 9,
    availability := 5, review_count := 3, image_url := "i", rating := 4,
    content_hash := "body", raw_html := "body", first_seen := 1,
    last_updated := 2 }

/-- C1 witness: the short-circuit theorem applied at a concrete state
whose stored hash (under the identity digest) matches the fetched body. -/
theorem hash_match_short_circuit_witness :
    findBook (⟨[docC1], [], [], []⟩ : ScraperState).books "u" = some docC1 ∧
    process_book_page (fun s => s) (fun _ _ => none) "s" "n" 7
      ⟨[docC1], [], [], []⟩ "u" (some "body") =
      ⟨none, ⟨[docC1], [], [], []⟩, false⟩ :=
  ⟨by decide,
   hash_match_short_circuit (fun s => s) (fun _ _ => none) "s" "n" 7
     ⟨[docC1], [], [], []⟩ "u" "body" docC1 (by decide) (by decide)⟩

/-- Concrete stored document used by the C2 evaluation. -/
def docC2 : BookDoc :=
  { id := "id0", url := "u", title := "Old", category := "C",
    description := "D", price_incl_tax := 10, price_excl_tax := 9,
    availability := 5, review_count := 3, image_url := "i", rating := 4,
    content_hash := "h0", raw_html := "old", first_seen := 1,
    last_updated := 2 }

/-- Freshly parsed record used by the C2 evaluation: only the title
differs from `docC2`. -/
def baseC2 : BookBase :=
  { url := "u", title := "New", category := "C", description := "D",
    price_incl_tax := 10, price_excl_tax := 9, availability := 5,
    review_count := 3, image_url := "i", rating := 4 }

/-- Result of processing the changed page for the C2 evaluation, at
update time `5` against a record first seen at time `1`. -/
def resC2 : ProcessResult :=
  process_book_page (fun _ => "h1") (fun _ _ => some baseC2) "s" "nid" 5
    ⟨[docC2], [], [], []⟩ "u" (some "body")

/-- C2 (code-bug evaluation): an upsert of an existing record — stored
`first_seen = 1` — at update time `5` classifies as updated but rewrites
the stored `first_seen` to `5`: the `update_one` call `$set`s the full
`model_dump`, whose `first_seen` was initialised to `now` and never
restored to the stored value.  The claim's `first_seen` immutability
fails, while `last_updated` is refreshed as claimed. -/
theorem update_rewrites_first_seen :
    resC2.classification = some "updated" ∧
    docC2.first_seen = 1 ∧
    resC2.state.books.map (fun b => b.first_seen) = [5] ∧
    resC2.state.books.map (fun b => b.last_updated) = [5] := by decide

/-- C4: with the configured `retries=3` and every attempt failing, the
retry loop makes exactly 3 attempts, sleeps the exponentially doubling
delays `base` and `base * 2` between them, returns `None` instead of
propagating an exception, and the per-item processing of the failed
fetch performs no store mutation (no record, no change-log entry, no
session activity) and no parse. -/
theorem all_attempts_fail_returns_failure
    (f : Nat → Option String) (base : ℚ)
    (hf : ∀ n, n < 3 → f n = none)
    (hashFn : String → String) (parse : String → String → Option BookBase)
    (sid nid : String) (now : Int) (st : ScraperState) (url : String) :
    fetch_with_retry f base 3 = (none, 3, [base, base * 2]) ∧
    process_book_page hashFn parse sid nid now st url none =
      ⟨none, st, false⟩ := by
  constructor
  · have h0 := hf 0 (by norm_num)
    have h1 := hf 1 (by norm_num)
    have h2 := hf 2 (by norm_num)
    simp [fetch_with_retry, backoffAux, h0, h1, h2, pow_zero, pow_one]
  · unfold process_book_page
    by_cases hc : url ∈ st.scraped_links <;> simp [hc]

/-- C4 witness: the theorem applied to the always-failing fetch at a
concrete state. -/
theorem all_attempts_fail_witness :
    fetch_with_retry (fun _ => none) 1 3 = (none, 3, [1, 1 * 2]) ∧
    process_book_page (fun s => s) (fun _ _ => none) "s" "n" 0
      ⟨[], [], [], []⟩ "u" none = ⟨none, ⟨[], [], [], []⟩, false⟩ :=
  all_attempts_fail_returns_failure (fun _ => none) 1 (fun _ _ => rfl)
    (fun s => s) (fun _ _ => none) "s" "n" 0 ⟨[], [], [], []⟩ "u"

/-- C5 counterexample: a fetch attempt that succeeds with an empty body
is *not* retried — the wrapped fetch returns the empty string to the
caller after exactly one attempt with no backoff sleeps, because the
decorator (`retry_on_None=True`) retries only on `None`. -/
theorem empty_body_not_retried :
    fetch_with_retry (fun _ => some "") 1 3 = (some "", 1, []) := by decide

/-- C5 (amended): only a `None` attempt result (what `fetch_page` turns
timeouts and transport/status errors into) triggers a retry; any
non-`None` body — the empty string included — is returned to the caller
after the first attempt with no backoff, and the caller treats the empty
body as a failed fetch: `process_book_page` performs no parse and no
store mutation on it. -/
theorem first_result_returned_without_retry
    (f : Nat → Option String) (base : ℚ) (retries : Nat) (v : String)
    (hf : f 0 = some v)
    (hashFn : String → String) (parse : String → String → Option BookBase)
    (sid nid : String) (now : Int) (st : ScraperState) (url : String) :
    fetch_with_retry f base (retries + 1) = (some v, 1, []) ∧
    process_book_page hashFn parse sid nid now st url (some "") =
      ⟨none, st, false⟩ := by
  constructor
  · simp [fetch_with_retry, backoffAux, hf]
  · unfold process_book_page
    by_cases hc : url ∈ st.scraped_links <;> simp [hc]

/-- C5 witness: the amended theorem applied to a first attempt returning
a non-empty body, and to the empty-body caller check at a concrete
state. -/
theorem first_result_returned_witness :
    fetch_with_retry (fun n => if n = 0 then some "x" else none) 1 3 =
      (some "x", 1, []) ∧
    process_book_page (fun s => s) (fun _ _ => none) "s" "n" 0
      ⟨[], [], [], []⟩ "u" (some "") = ⟨none, ⟨[], [], [], []⟩, false⟩ :=
  first_result_returned_without_retry (fun n => if n = 0 then some "x" else none)
    1 2 "x" rfl (fun s => s) (fun _ _ => none) "s" "n" 0 ⟨[], [], [], []⟩ "u"

/-- C6: for an existing record whose stored hash differs from the new
body's hash but whose field-by-field diff is empty, the classification
is unchanged (no return value) and the state is untouched: no record
update, no change-log append, no session-activity write. -/
theorem empty_diff_no_mutation
    (hashFn : String → String) (parse : String → String → Option BookBase)
    (sid nid : String) (now : Int) (st : ScraperState) (url html : String)
    (b : BookDoc) (nb : BookBase)
    (hfind : findBook st.books url = some b)
    (hparse : parse html url = some nb)
    (hdiff : changedFields b nb = []) :
    (process_book_page hashFn parse sid nid now st url (some html)).classification
      = none ∧
    (process_book_page hashFn parse sid nid now st url (some html)).state = st := by
  unfold process_book_page
  by_cases hc : url ∈ st.scraped_links
  · simp [hc]
  · by_cases hh : html = ""
    · simp [hc, hh]
    · by_cases hhash : b.content_hash = hashFn html
      · simp [hc, hh, hfind, hhash]
      · simp [hc, hh, hfind, hhash, hparse, hdiff]

/-- Concrete stored document used by the C6 witness. -/
def docC6 : BookDoc :=
  { id := "id0", url := "u", title := "T", category := "C",
    description := "D", price_incl_tax := 10, price_excl_tax := 9,
    availability := 5, review_count := 3, image_url := "i", rating := 4,
    content_hash := "h0", raw_html := "old", first_seen := 1,
    last_updated := 2 }

/-- Freshly parsed record used by the C6 witness: every compared field
equals the stored one, although the raw body (and hence the hash)
differs. -/
def baseC6 : BookBase :=
  { url := "u", title := "T", category := "C", description := "D",
    price_incl_tax := 10, price_excl_tax := 9, availability := 5,
    review_count := 3, image_url := "i", rating := 4 }

/-- C6 witness: the empty-diff theorem applied at a concrete state with
a hash mismatch (stored `"h0"`, fresh digest `"h1"`) and an empty diff. -/
theorem empty_diff_no_mutation_witness :
    changedFields docC6 baseC6 = [] ∧
    (process_book_page (fun _ => "h1") (fun _ _ => some baseC6) "s" "n" 5
      ⟨[docC6], [], [], []⟩ "u" (some "body")).classification = none ∧
    (process_book_page (fun _ => "h1") (fun _ _ => some baseC6) "s" "n" 5
      ⟨[docC6], [], [], []⟩ "u" (some "body")).state = ⟨[docC6], [], [], []⟩ :=
  ⟨by decide,
   empty_diff_no_mutation (fun _ => "h1") (fun _ _ => some baseC6) "s" "n" 5
     ⟨[docC6], [], [], []⟩ "u" "body" docC6 baseC6 (by decide) rfl (by decide)⟩

/-- Evaluation rule: the change list handed to the notifier is the
newest-first sorting of all qualifying entries. -/
theorem generate_daily_report_notified (limit : Int) (st : ScraperState)
    (since : Int) :
    (generate_daily_report limit st since).notified =
      sortNewestFirst (st.change_log.filter (fun e => since ≤ e.timestamp)) := rfl

/-- Evaluation rule: the persisted change list is the truncation of the
notified list per the limit policy. -/
theorem generate_daily_report_persisted (limit : Int) (st : ScraperState)
    (since : Int) :
    (generate_daily_report limit st since).persisted =
      (if limit > 0 then
        (generate_daily_report limit st since).notified.take limit.toNat
      else if limit = -1 then (generate_daily_report limit st since).notified
      else []) := rfl

/-- C3: `generate_daily_report` hands the notifier the complete
newest-first list of qualifying change-log entries (exactly those with
timestamp ≥ since, sorted by descending timestamp), and only the
persisted copy is truncated: limit N > 0 keeps the N newest (a prefix of
the newest-first list), limit = -1 keeps all, limit = 0 keeps none; in
every case the persisted list is a prefix of what the notifier saw. -/
theorem report_notifier_full_persist_truncated
    (limit : Int) (st : ScraperState) (since : Int) :
    (∀ e, e ∈ (generate_daily_report limit st since).notified ↔
        (e ∈ st.change_log ∧ since ≤ e.timestamp)) ∧
    List.Sorted newerEq (generate_daily_report limit st since).notified ∧
    (0 < limit →
      (generate_daily_report limit st since).persisted =
        (generate_daily_report limit st since).notified.take limit.toNat) ∧
    (limit = -1 →
      (generate_daily_report limit st since).persisted =
        (generate_daily_report limit st since).notified) ∧
    (limit = 0 → (generate_daily_report limit st since).persisted = []) ∧
    (∃ t, (generate_daily_report limit st since).notified =
        (generate_daily_report limit st since).persisted ++ t) := by
  refine ⟨?_, ?_, ?_, ?_, ?_, ?_⟩
  · intro e
    rw [generate_daily_report_notified]
    simp [sortNewestFirst, List.mem_filter]
  · rw [generate_daily_report_notified]
    exact List.sorted_insertionSort newerEq _
  · intro h
    rw [generate_daily_report_persisted, if_pos h]
  · intro h
    subst h
    rw [generate_daily_report_persisted]
    norm_num
  · intro h
    subst h
    rw [generate_daily_report_persisted]
    norm_num
  · rw [generate_daily_report_persisted]
    by_cases h1 : limit > 0
    · rw [if_pos h1]
      exact ⟨_, (List.take_append_drop _ _).symm⟩
    · rw [if_neg h1]
      by_cases h2 : limit = -1
      · rw [if_pos h2]
        exact ⟨[], (List.append_nil _).symm⟩
      · rw [if_neg h2]
        exact ⟨_, rfl⟩

/-- Concrete change log used by the C3 witness: five qualifying entries
with timestamps 1..5. -/
def stC3 : ScraperState :=
  ⟨[],
   [⟨"b1", "updated", [], 1⟩, ⟨"b2", "updated", [], 2⟩,
    ⟨"b3", "added", [("new_book", DVal.flag true)], 3⟩,
    ⟨"b4", "updated", [], 4⟩, ⟨"b5", "updated", [], 5⟩],
   [], []⟩

/-- C3 witness: the report theorem applied at limits 2, -1 and 0 over
five qualifying changes, together with the concrete evaluation — the
notifier always sees all five (newest first), while the persisted list
keeps the 2 newest, all 5, or none. -/
theorem report_notifier_witness :
    ((generate_daily_report 2 stC3 0).persisted =
      (generate_daily_report 2 stC3 0).notified.take (Int.toNat 2)) ∧
    ((generate_daily_report (-1) stC3 0).persisted =
      (generate_daily_report (-1) stC3 0).notified) ∧
    ((generate_daily_report 0 stC3 0).persisted = []) ∧
    (generate_daily_report 2 stC3 0).notified.map (fun e => e.timestamp) =
      [5, 4, 3, 2, 1] ∧
    (generate_daily_report 2 stC3 0).persisted.map (fun e => e.timestamp) =
      [5, 4] ∧
    (generate_daily_report (-1) stC3 0).persisted.length = 5 :=
  ⟨(report_notifier_full_persist_truncated 2 stC3 0).2.2.1 (by norm_num),
   (report_notifier_full_persist_truncated (-1) stC3 0).2.2.2.1 rfl,
   (report_notifier_full_persist_truncated 0 stC3 0).2.2.2.2.1 rfl,
   by decide, by decide, by decide⟩

/-- Shape of the change log after one `process_book_page` call: either
untouched, or exactly one entry appended — a creation entry
(type `"added"`, new-book sentinel) or an update entry
(type `"updated"`, the (old, new) pairs of a non-empty diff). -/
theorem process_change_log_shape
    (hashFn : String → String) (parse : String → String → Option BookBase)
    (sid nid : String) (now : Int) (st : ScraperState) (url : String)
    (fetched : Option String) :
    (process_book_page hashFn parse sid nid now st url fetched).state.change_log
        = st.change_log ∨
    (∃ e : ChangeLogEntry,
      (process_book_page hashFn parse sid nid now st url fetched).state.change_log
          = st.change_log ++ [e] ∧
      ((e.change_type = "added" ∧
          e.changed_fields = [("new_book", DVal.flag true)]) ∨
       (e.change_type = "updated" ∧ ∃ b nb, changedFields b nb ≠ [] ∧
          e.changed_fields = toPairFields (changedFields b nb)))) := by
  unfold process_book_page
  by_cases hc : url ∈ st.scraped_links
  · left; simp [hc]
  · cases fetched with
    | none => left; simp [hc]
    | some html =>
      by_cases hh : html = ""
      · left; simp [hc, hh]
      · cases hfind : findBook st.books url with
        | some existing =>
          by_cases hhash : existing.content_hash = hashFn html
          · left; simp [hc, hh, hfind, hhash]
          · cases hparse : parse html url with
            | none => left; simp [hc, hh, hfind, hhash, hparse]
            | some nb =>
              by_cases hdiff : changedFields existing nb = []
              · left; simp [hc, hh, hfind, hhash, hparse, hdiff]
              · right
                refine ⟨⟨existing.id, "updated",
                    toPairFields (changedFields existing nb), now⟩, ?_,
                  Or.inr ⟨rfl, existing, nb, hdiff, rfl⟩⟩
                simp [hc, hh, hfind, hhash, hparse, hdiff]
        | none =>
          cases hparse : parse html url with
          | none => left; simp [hc, hh, hfind, hparse]
          | some nb =>
            right
            refine ⟨⟨nid, "added", [("new_book", DVal.flag true)], now⟩, ?_,
              Or.inl ⟨rfl, rfl⟩⟩
            simp [hc, hh, hfind, hparse]

/-- Freshly parsed record used by the C7 evaluation. -/
def baseC7 : BookBase :=
  { url := "u", title := "T", category := "C", description := "D",
    price_incl_tax := 10, price_excl_tax := 9, availability := 5,
    review_count := 3, image_url := "i", rating := 4 }

/-- Result of processing a brand-new URL for the C7 evaluation. -/
def resC7 : ProcessResult :=
  process_book_page (fun _ => "h") (fun _ _ => some baseC7) "s" "nid" 3
    ⟨[], [], [], []⟩ "u" (some "body")

/-- C7 counterexample: processing a brand-new URL returns the
classification `"created"` but the appended change-log entry's stored
change kind is the string `"added"` — which is neither `"created"` nor
`"updated"` — so the claim that every appended entry has kind
`'created'` or `'updated'` fails on the creation path. -/
theorem creation_entry_kind_added :
    resC7.classification = some "created" ∧
    resC7.state.change_log.map (fun e => e.change_type) = ["added"] ∧
    ¬ ("added" = "created" ∨ "added" = "updated") := by decide

/-- C7 (amended): every change-log entry appended by the detector has
change kind `"added"` (creation) or `"updated"`; an `"added"` entry
carries the new-book sentinel as its changed-fields mapping, and an
`"updated"` entry maps each changed field name to its (old value, new
value) pair — the pairs of a non-empty field diff. -/
theorem appended_entry_well_formed
    (hashFn : String → String) (parse : String → String → Option BookBase)
    (sid nid : String) (now : Int) (st : ScraperState) (url : String)
    (fetched : Option String) (e : ChangeLogEntry)
    (he : e ∈ (process_book_page hashFn parse sid nid now st url
      fetched).state.change_log) :
    e ∈ st.change_log ∨
    (e.change_type = "added" ∧
      e.changed_fields = [("new_book", DVal.flag true)]) ∨
    (e.change_type = "updated" ∧ ∃ b nb, changedFields b nb ≠ [] ∧
      e.changed_fields = toPairFields (changedFields b nb)) := by
  rcases process_change_log_shape hashFn parse sid nid now st url fetched with
    h | ⟨e', he', hwf⟩
  · rw [h] at he
    exact Or.inl he
  · rw [he'] at he
    rcases List.mem_append.1 he with h1 | h2
    · exact Or.inl h1
    · have : e = e' := by simpa using h2
      subst this
      exact Or.inr hwf

/-- The creation entry appended in the C7 evaluation. -/
def entryC7 : ChangeLogEntry :=
  ⟨"nid", "added", [("new_book", DVal.flag true)], 3⟩

/-- C7 witness: the well-formedness theorem applied to the concrete
creation entry appended when processing a brand-new URL. -/
theorem appended_entry_well_formed_witness :
    entryC7 ∈ resC7.state.change_log ∧
    (entryC7 ∈ (⟨[], [], [], []⟩ : ScraperState).change_log ∨
     (entryC7.change_type = "added" ∧
       entryC7.changed_fields = [("new_book", DVal.flag true)]) ∨
     (entryC7.change_type = "updated" ∧ ∃ b nb, changedFields b nb ≠ [] ∧
       entryC7.changed_fields = toPairFields (changedFields b nb))) :=
  ⟨by decide,
   appended_entry_well_formed (fun _ => "h") (fun _ _ => some baseC7) "s" "nid"
     3 ⟨[], [], [], []⟩ "u" (some "body") entryC7 (by decide)⟩

/-- Bucket membership test: a creation entry. -/
def isAddedB (e : ChangeLogEntry) : Bool := e.change_type == "added"

/-- Bucket membership test: an update entry with a price change. -/
def isPriceB (e : ChangeLogEntry) : Bool :=
  e.change_type == "updated" && hasField e.changed_fields "price_incl_tax"

/-- Bucket membership test: an update entry with an availability change
and no price change (price takes precedence in the `elif` chain). -/
def isAvailB (e : ChangeLogEntry) : Bool :=
  e.change_type == "updated" && !hasField e.changed_fields "price_incl_tax" &&
    hasField e.changed_fields "availability"

/-- Bucket membership test: an update entry with neither a price nor an
availability change. -/
def isOtherB (e : ChangeLogEntry) : Bool :=
  e.change_type == "updated" && !hasField e.changed_fields "price_incl_tax" &&
    !hasField e.changed_fields "availability"

/-- Matcher for the new-books notification email. -/
def isNewBooksMsg : Notification → Bool
  | Notification.newBooks _ => true
  | _ => false

/-- Matcher for the price-changes notification email. -/
def isPriceMsg : Notification → Bool
  | Notification.priceChanges _ => true
  | _ => false

/-- Matcher for the availability-changes notification email. -/
def isAvailMsg : Notification → Bool
  | Notification.availabilityChanges _ => true
  | _ => false

/-- Matcher for the other-changes notification email. -/
def isOtherMsg : Notification → Bool
  | Notification.otherChanges _ => true
  | _ => false

/-- The bucket loop is a quadruple filter: each bucket keeps exactly the
entries satisfying its membership test, in input order. -/
theorem partitionChanges_eq_filter (l : List ChangeLogEntry) :
    partitionChanges l =
      (l.filter isAddedB, l.filter isPriceB, l.filter isAvailB,
       l.filter isOtherB) := by
  induction l with
  | nil => rfl
  | cons c rest ih =>
    unfold partitionChanges
    rw [ih]
    by_cases h1 : c.change_type = "added"
    · simp [List.filter_cons, isAddedB, isPriceB, isAvailB, isOtherB, h1]
    · by_cases h2 : c.change_type = "updated"
      · by_cases h3 : hasField c.changed_fields "price_incl_tax" = true
        · simp [List.filter_cons, isAddedB, isPriceB, isAvailB, isOtherB,
            h1, h2, h3]
        · by_cases h4 : hasField c.changed_fields "availability" = true
          · simp [List.filter_cons, isAddedB, isPriceB, isAvailB, isOtherB,
              h1, h2, h3, h4]
          · simp [List.filter_cons, isAddedB, isPriceB, isAvailB, isOtherB,
              h1, h2, h3, h4]
      · simp [List.filter_cons, isAddedB, isPriceB, isAvailB, isOtherB,
          h1, h2]

/-- C8: the notifier partitions a well-formed change list (every entry a
creation or an update) into the four buckets given by the membership
tests — an entry whose changed fields include both price and
availability lands in the price bucket, never the availability bucket,
since `isAvailB` requires the absence of a price change — every entry
falls in exactly one bucket, and exactly one message is emitted per
non-empty bucket and none for an empty one. -/
theorem notifier_partition_buckets (changes : List ChangeLogEntry)
    (hwf : ∀ e ∈ changes,
      e.change_type = "added" ∨ e.change_type = "updated") :
    (partitionChanges changes).1 = changes.filter isAddedB ∧
    (partitionChanges changes).2.1 = changes.filter isPriceB ∧
    (partitionChanges changes).2.2.1 = changes.filter isAvailB ∧
    (partitionChanges changes).2.2.2 = changes.filter isOtherB ∧
    (∀ e ∈ changes,
      [isAddedB e, isPriceB e, isAvailB e, isOtherB e].count true = 1) ∧
    (send_change_notifications changes).countP isNewBooksMsg =
      (if (partitionChanges changes).1 = [] then 0 else 1) ∧
    (send_change_notifications changes).countP isPriceMsg =
      (if (partitionChanges changes).2.1 = [] then 0 else 1) ∧
    (send_change_notifications changes).countP isAvailMsg =
      (if (partitionChanges changes).2.2.1 = [] then 0 else 1) ∧
    (send_change_notifications changes).countP isOtherMsg =
      (if (partitionChanges changes).2.2.2 = [] then 0 else 1) := by
  rw [partitionChanges_eq_filter]
  refine ⟨rfl, rfl, rfl, rfl, ?_, ?_, ?_, ?_, ?_⟩
  · intro e he
    rcases hwf e he with h | h
    · simp [isAddedB, isPriceB, isAvailB, isOtherB, h]
    · by_cases h3 : hasField e.changed_fields "price_incl_tax" = true
      · simp [isAddedB, isPriceB, isAvailB, isOtherB, h, h3]
      · by_cases h4 : hasField e.changed_fields "availability" = true
        · simp [isAddedB, isPriceB, isAvailB, isOtherB, h, h3, h4]
        · simp [isAddedB, isPriceB, isAvailB, isOtherB, h, h3, h4]
  all_goals
    simp only [send_change_notifications, partitionChanges_eq_filter,
      List.countP_append, apply_ite (List.countP isNewBooksMsg),
      apply_ite (List.countP isPriceMsg),
      apply_ite (List.countP isAvailMsg),
      apply_ite (List.countP isOtherMsg),
      List.countP_nil, List.countP_cons, List.countP_singleton]
    simp [isNewBooksMsg, isPriceMsg, isAvailMsg, isOtherMsg,
      apply_ite List.length]

/-- Concrete change list for the C8 witness: one creation, one pure
price change, one entry with both price and availability changed, one
pure availability change, one other change. -/
def changesC8 : List ChangeLogEntry :=
  [⟨"b1", "added", [("new_book", DVal.flag true)], 1⟩,
   ⟨"b2", "updated", [("price_incl_tax", DVal.pair (FVal.q 10) (FVal.q 12))], 2⟩,
   ⟨"b3", "updated",
    [("price_incl_tax", DVal.pair (FVal.q 1) (FVal.q 2)),
     ("availability", DVal.pair (FVal.i 5) (FVal.i 3))], 3⟩,
   ⟨"b4", "updated", [("availability", DVal.pair (FVal.i 1) (FVal.i 0))], 4⟩,
   ⟨"b5", "updated", [("title", DVal.pair (FVal.s "a") (FVal.s "b"))], 5⟩]

/-- C8 witness: the partition theorem applied at the concrete list, plus
its evaluation — the entry with both price and availability changes
(`b3`) lands in the price bucket, and one message is emitted per
non-empty bucket. -/
theorem notifier_partition_witness :
    (partitionChanges changesC8).1 = changesC8.filter isAddedB ∧
    (partitionChanges changesC8).1.map (fun e => e.book_id) = ["b1"] ∧
    (partitionChanges changesC8).2.1.map (fun e => e.book_id) = ["b2", "b3"] ∧
    (partitionChanges changesC8).2.2.1.map (fun e => e.book_id) = ["b4"] ∧
    (partitionChanges changesC8).2.2.2.map (fun e => e.book_id) = ["b5"] ∧
    (send_change_notifications changesC8).length = 4 :=
  ⟨(notifier_partition_buckets changesC8 (by decide)).1,
   by decide, by decide, by decide, by decide, by decide⟩

/-- C9: for an item page whose free-text stock string is absent (the
availability cell is present but empty — Python's falsy-string default),
and whose other required fields parse, `parse_book_page` still returns a
record, with availability count 0, rather than a parse failure. -/
theorem missing_stock_defaults_zero
    (resolveLink : String → String → String) (pd : PageData) (url : String)
    (title cat pit pet rct : String) (q1 q2 : ℚ) (rc : Int)
    (h1 : pd.h1_text = some title)
    (h2 : listGet0 pd.breadcrumb_texts = some cat)
    (h3 : listGet0 pd.price_incl_tax_texts = some pit)
    (h4 : pyFloat? (pyTail pit) = some q1)
    (h5 : listGet0 pd.price_excl_tax_texts = some pet)
    (h6 : pyFloat? (pyTail pet) = some q2)
    (h7 : listGet0 pd.availability_texts = some "")
    (h8 : listGet0 pd.review_count_texts = some rct)
    (h9 : pyInt? rct = some rc) :
    ∃ r, parse_book_page resolveLink pd url = some r ∧ r.availability = 0 := by
  have hp : parse_book_page resolveLink pd url =
      some { url := url, title := title, category := cat,
             description := (listGet0 pd.description_texts).getD "No description",
             price_incl_tax := q1, price_excl_tax := q2, availability := 0,
             review_count := rc,
             image_url :=
               (match pd.image_src with
                | none => ""
                | some attr => tag_to_absolute_url resolveLink attr url ""),
             rating := ratingScore (pd.star_rating_classes.getD []) } := by
    simp [parse_book_page, h1, h2, h3, h4, h5, h6, h7, h8, h9]
  exact ⟨_, hp, rfl⟩

/-- Concrete selector extraction for the C9 witness: availability cell
present but empty, description and image absent (they have their own
defaults), everything else well-formed. -/
def pdC9 : PageData :=
  { h1_text := some "T", breadcrumb_texts := ["Cat"],
    description_texts := [], price_incl_tax_texts := ["£5"],
    price_excl_tax_texts := ["£4"], availability_texts := [""],
    review_count_texts := ["0"], image_src := none,
    star_rating_classes := some ["star-rating", "Three"] }

/-- C9 witness: the default-to-zero theorem applied at the concrete page
data, plus the evaluation of the parsed record's non-price fields. -/
theorem missing_stock_defaults_zero_witness :
    (∃ r, parse_book_page (fun v _ => v) pdC9 "u" = some r ∧
      r.availability = 0) ∧
    (parse_book_page (fun v _ => v) pdC9 "u").map (fun r => r.availability) =
      some 0 ∧
    (parse_book_page (fun v _ => v) pdC9 "u").map (fun r => r.title) =
      some "T" ∧
    (parse_book_page (fun v _ => v) pdC9 "u").map (fun r => r.description) =
      some "No description" ∧
    (parse_book_page (fun v _ => v) pdC9 "u").map (fun r => r.rating) =
      some 3 :=
  ⟨missing_stock_defaults_zero (fun v _ => v) pdC9 "u" "T" "Cat" "£5" "£4" "0"
     (1 * ((5 : ℕ) : ℚ)) (1 * ((4 : ℕ) : ℚ)) 0 rfl rfl rfl rfl rfl rfl rfl rfl
     rfl,
   rfl, rfl, rfl, rfl⟩

/-- One step of the email-quota invariant: a `send_email_alert` call
preserves `quota + sent` and never drives the quota negative. -/
theorem send_email_alert_step (st : EmailState) (c : EmailCall) :
    (send_email_alert st c).2.1.quota + (send_email_alert st c).2.1.sent =
      st.quota + st.sent ∧
    (0 ≤ st.quota → 0 ≤ (send_email_alert st c).2.1.quota) := by
  unfold send_email_alert
  by_cases h1 : st.quota ≤ 0 ∨ c.recipient = none
  · simp [h1]
  · by_cases h2 : c.smtpOk
    · cases hfind : (List.range c.max_retries).find? c.attemptOk with
      | some i =>
        have hq : ¬ st.quota ≤ 0 := fun h => h1 (Or.inl h)
        constructor
        · simp [h1, h2, hfind]
        · intro _
          simp [h1, h2, hfind]
          omega
      | none => simp [h1, h2, hfind]
    · simp [h1, h2]

/-- The quota invariant over a whole sequence of calls: quota stays
non-negative and `quota + sent` is conserved. -/
theorem runEmailCalls_invariant (calls : List EmailCall) :
    ∀ st : EmailState, 0 ≤ st.quota →
      0 ≤ (runEmailCalls st calls).quota ∧
      (runEmailCalls st calls).quota + (runEmailCalls st calls).sent =
        st.quota + st.sent := by
  induction calls with
  | nil => intro st h; exact ⟨h, rfl⟩
  | cons c rest ih =>
    intro st h
    simp only [runEmailCalls]
    have step := send_email_alert_step st c
    have h' := step.2 h
    have tail := ih (send_email_alert st c).2.1 h'
    refine ⟨tail.1, ?_⟩
    rw [tail.2, step.1]

/-- C10: the process-global email quota starts at `MAX_EMAILS = 5`; a
call with exhausted quota or with no recipient returns `False`
immediately with zero dispatch attempts and an unchanged state; a call
returning `True` decrements the quota and increments the dispatch
count; and over any sequence of calls starting from the initial quota,
at most 5 emails are ever dispatched. -/
theorem email_quota_at_most_five (calls : List EmailCall) :
    MAX_EMAILS = 5 ∧
    (∀ st c, st.quota ≤ 0 → send_email_alert st c = (false, st, 0)) ∧
    (∀ (st : EmailState) (c : EmailCall), c.recipient = none →
      send_email_alert st c = (false, st, 0)) ∧
    (∀ st c, (send_email_alert st c).1 = true →
      (send_email_alert st c).2.1.quota = st.quota - 1 ∧
      (send_email_alert st c).2.1.sent = st.sent + 1) ∧
    (runEmailCalls ⟨MAX_EMAILS, 0⟩ calls).sent ≤ 5 := by
  refine ⟨rfl, ?_, ?_, ?_, ?_⟩
  · intro st c h
    simp [send_email_alert, h]
  · intro st c h
    simp [send_email_alert, h]
  · intro st c h
    unfold send_email_alert at h ⊢
    by_cases h1 : st.quota ≤ 0 ∨ c.recipient = none
    · simp [h1] at h
    · by_cases h2 : c.smtpOk
      · cases hfind : (List.range c.max_retries).find? c.attemptOk with
        | some i => simp [h1, h2, hfind]
        | none => simp [h1, h2, hfind] at h
      · simp [h1, h2] at h
  · have inv := runEmailCalls_invariant calls ⟨MAX_EMAILS, 0⟩
      (by norm_num [MAX_EMAILS])
    have h1 := inv.1
    have h2 := inv.2
    have hq : (⟨MAX_EMAILS, 0⟩ : EmailState).quota = 5 := rfl
    have hs : (⟨MAX_EMAILS, 0⟩ : EmailState).sent = 0 := rfl
    rw [hq, hs] at h2
    omega

/-- Always-successful call used by the C10 witness. -/
def callC10 : EmailCall := ⟨some "ops", true, fun _ => true, 3⟩

/-- C10 witness: the quota theorem applied to seven always-successful
calls (only 5 get through), and to concrete exhausted-quota and
no-recipient calls. -/
theorem email_quota_witness :
    (runEmailCalls ⟨MAX_EMAILS, 0⟩ (List.replicate 7 callC10)).sent ≤ 5 ∧
    (runEmailCalls ⟨MAX_EMAILS, 0⟩ (List.replicate 7 callC10)).sent = 5 ∧
    send_email_alert ⟨0, 5⟩ callC10 = (false, ⟨0, 5⟩, 0) ∧
    send_email_alert ⟨3, 2⟩ ⟨none, true, fun _ => true, 3⟩ =
      (false, ⟨3, 2⟩, 0) :=
  ⟨(email_quota_at_most_five (List.replicate 7 callC10)).2.2.2.2,
   by decide,
   (email_quota_at_most_five []).2.1 ⟨0, 5⟩ callC10 (by norm_num),
   (email_quota_at_most_five []).2.2.1 ⟨3, 2⟩ ⟨none, true, fun _ => true, 3⟩
     rfl⟩

end BookKeeper
